import Mathlib

/-!
Verification of the `python-rtmidi` repository sources against its
specification.  Two source files are embedded:

* `src/examples/wavetablemodstep.py` — the example script (class `Midi`
  with `play_stepping`, `reset_controllers`, `set_wavetable`, plus the
  `__main__` block).
* `src/setup.py` — the build script (`check_for_jack` and the
  platform/backend configuration of the `_rtmidi` extension).

Modelling conventions:

* A MIDI message is a `List Int` of byte values exactly as handed to
  `send_message`.  A run of the script is the list of messages in the
  order they are sent; `time.sleep` calls do not affect that list, so
  durations (`dur`, `args.length`) are dropped from the embedding, as is
  the MIDI port number (`args.device`), which only selects the output
  port and never appears in a message.
* Python's bitwise `&` on arbitrary (possibly negative) ints with an
  all-ones mask `2^k - 1` equals Python's `%` by `2^k`, which is
  Euclidean mod: `x & 0x7F` is embedded as `x % 128` and `ch & 0xF` as
  `ch % 16` over `Int` (Lean's `%` on `Int` is `Int.emod`, which agrees
  with Python's `%` for a positive modulus).  Since `0x80`, `0x90`,
  `0xB0` all have a zero low nibble and `ch % 16 < 16`, the status byte
  `0x90 | (ch & 0xF)` equals `0x90 + ch % 16`, which is how `|` is
  embedded.
* `xrange(start, stop, step)` is embedded as `xrange` below; Python
  raises `ValueError` on `step = 0`, which `play_stepping` (the `Option`
  wrapper around the message list) reports as `none`.
-/

namespace Wavetable

/-- Fuel-driven ascending range: the elements of
`xrange(start, stop, step)` for a positive `step`. -/
def rangeUp (stop step : Int) : Int → Nat → List Int
  | _, 0 => []
  | start, n + 1 =>
    if start < stop then start :: rangeUp stop step (start + step) n else []

/-- Fuel-driven descending range: the elements of
`xrange(start, stop, step)` for a negative `step`. -/
def rangeDown (stop step : Int) : Int → Nat → List Int
  | _, 0 => []
  | start, n + 1 =>
    if stop < start then start :: rangeDown stop step (start + step) n else []

/-- Python 2 `xrange(start, stop, step)` for `step ≠ 0`.  For `step ≥ 1`
every element advances by at least one, so `(stop - start).toNat` fuel is
enough; symmetrically for negative `step`.  `step = 0` raises
`ValueError` in Python and yields `[]` here; the only call site guards it
(see `play_stepping`). -/
def xrange (start stop step : Int) : List Int :=
  if 0 < step then rangeUp stop step start (stop - start).toNat
  else if step < 0 then rangeDown stop step start (start - stop).toNat
  else []

/-- The messages of the `for i in xrange(0, 128, step)` loop of
`Midi.play_stepping`: `self.midi.send_message([0xB0 | (ch & 0xF), 1, i])`. -/
def stepping_cc (step ch : Int) : List (List Int) :=
  (xrange 0 128 step).map fun i => [0xB0 + ch % 16, 1, i]

/-- The full message trace of `Midi.play_stepping(note, dur, step, vel,
rvel, ch)`: note on, the control-change loop, note off.  `rvel.getD vel`
embeds `(rvel if rvel is not None else vel)`. -/
def play_stepping_msgs (note step vel : Int) (rvel : Option Int) (ch : Int) :
    List (List Int) :=
  [0x90 + ch % 16, note % 128, vel % 128] ::
    (stepping_cc step ch ++
      [[0x80 + ch % 16, note % 128, (rvel.getD vel) % 128]])

/-- Embeds `Midi.play_stepping`, with `step = 0` (on which `xrange` raises
`ValueError`) reported as failure. -/
def play_stepping (note step vel : Int) (rvel : Option Int) (ch : Int) :
    Option (List (List Int)) :=
  if step = 0 then none else some (play_stepping_msgs note step vel rvel ch)

/-- Embeds `Midi.reset_controllers(ch)`:
`send_message([0xB0 | (ch & 0xF), 121, 0])`. -/
def reset_controllers (ch : Int) : List Int :=
  [0xB0 + ch % 16, 121, 0]

/-- Embeds `Midi.set_wavetable(wt, ch)`:
`send_message([0xB0 | (ch & 0xF), 70, wt & 0x7F])`. -/
def set_wavetable (wt ch : Int) : List Int :=
  [0xB0 + ch % 16, 70, wt % 128]

/-- The message trace of the `__main__` block, as a function of the
parsed arguments `args.channel`, `args.note` and `args.wavetable`
(`args.device` and `args.length` do not influence the messages).
`if args.wavetable:` is Python truthiness: false for `None` and for `0`. -/
def mainMessages (channel note : Int) (wavetable : Option Int) :
    List (List Int) :=
  (match wavetable with
    | some w => if w ≠ 0 then [set_wavetable (w - 1) (channel - 1)] else []
    | none => []) ++
  ([reset_controllers (channel - 1)] ++
    (play_stepping_msgs note 2 64 none (channel - 1) ++
      [reset_controllers (channel - 1)]))

/-- C1: for `play_stepping(note=60, step=2)` with the default `vel=64`,
`rvel=None`, `ch=0`, the trace is exactly one Note On `[0x90, 60, 64]`,
then the Control Change messages `[0xB0, 1, v]` for
`v = 0, 2, …, 126` in strictly ascending order with no gaps and no
repeats, then exactly one Note Off `[0x80, 60, 64]`, and nothing else. -/
theorem c1_stepping_scenario :
    play_stepping_msgs 60 2 64 none 0 =
      [0x90, 60, 64] ::
        (((List.range 64).map fun k => [0xB0, 1, 2 * (k : Int)]) ++
          [[0x80, 60, 64]]) ∧
    (let vals := (List.range 64).map fun k => 2 * (k : Int)
     ((vals.zip vals.tail).all fun p => decide (p.1 < p.2)) = true ∧
       vals.head? = some 0 ∧ vals.getLast? = some 126 ∧ vals.Nodup) := by
  refine ⟨by decide, by decide, by decide, by decide, by decide⟩

/-- C2: `play_stepping` masks the note and velocity bytes to their low 7
bits (`x & 0x7F`, i.e. `x % 128`) and never rejects an out-of-range note:
the trace is produced for every integer `note` (`play_stepping` with the
default `step`-free call succeeds), and `note = 200` yields the wire byte
`72`.  `set_wavetable` masks its value byte the same way. -/
theorem c2_low7_masking (note step vel wt ch : Int) (rvel : Option Int) :
    (play_stepping_msgs note step vel rvel ch).head? =
      some [0x90 + ch % 16, note % 128, vel % 128] ∧
    (play_stepping note 2 vel rvel ch).isSome = true ∧
    set_wavetable wt ch = [0xB0 + ch % 16, 70, wt % 128] ∧
    (play_stepping_msgs 200 2 64 none 0).head? = some [0x90, 72, 64] := by
  refine ⟨rfl, rfl, rfl, by decide⟩

/-- Every message of the stepping loop is `[0xB0 + ch % 16, 1, i]` for
some element `i` of `xrange 0 128 step`. -/
theorem stepping_cc_shape (step ch : Int) (m : List Int)
    (hm : m ∈ stepping_cc step ch) :
    ∃ i ∈ xrange 0 128 step, m = [0xB0 + ch % 16, 1, i] := by
  simpa [stepping_cc, List.mem_map, eq_comm] using hm

/-- C3: every Control Change message of `play_stepping`'s stepping loop
carries the literal controller number `1` (Modulation wheel) as its
second byte, for every combination of arguments. -/
theorem c3_controller_is_one (step ch : Int) :
    ∀ m ∈ stepping_cc step ch, m[1]? = some 1 := by
  intro m hm
  obtain ⟨i, _, rfl⟩ := stepping_cc_shape step ch m hm
  rfl

/-- C3 witness: concrete membership and controller byte for
`step = 2`, `ch = 0`. -/
theorem c3_controller_is_one_witness :
    [0xB0, 1, 0] ∈ stepping_cc 2 0 ∧ ([0xB0, (1 : Int), 0])[1]? = some 1 :=
  ⟨by decide, c3_controller_is_one 2 0 [0xB0, 1, 0] (by decide)⟩

/-- C10: the Note Off message of `play_stepping` is always the last
message; it carries the same masked note byte `note % 128` as the Note
On, and its velocity byte is `rvel % 128` when `rvel` is given and
`vel % 128` otherwise — so for `rvel = none` the release velocity equals
the attack velocity. -/
theorem c10_note_off_mirrors_note_on (note step vel ch : Int)
    (rvel : Option Int) :
    (play_stepping_msgs note step vel rvel ch).getLast? =
      some [0x80 + ch % 16, note % 128, (rvel.getD vel) % 128] ∧
    ((play_stepping_msgs note step vel rvel ch).getLast?.map fun m => m[1]?) =
      ((play_stepping_msgs note step vel rvel ch).head?.map fun m => m[1]?) ∧
    (play_stepping_msgs note step vel none ch).getLast? =
      some [0x80 + ch % 16, note % 128, vel % 128] := by
  have hlast : ∀ r : Option Int,
      (play_stepping_msgs note step vel r ch).getLast? =
        some [0x80 + ch % 16, note % 128, (r.getD vel) % 128] := by
    intro r
    show ((([0x90 + ch % 16, note % 128, vel % 128] :: stepping_cc step ch) ++
        [[0x80 + ch % 16, note % 128, (r.getD vel) % 128]]).getLast?) = _
    rw [List.getLast?_concat]
  refine ⟨hlast rvel, ?_, hlast none⟩
  rw [hlast rvel]
  rfl

/-- C4 counterexample: the controller numbers are NOT configurable.  No
choice of caller arguments makes the stepping loop emit a controller
byte other than `1`, `set_wavetable` one other than `70`, or
`reset_controllers` one other than `121`: the negation of "the
controller number can be chosen by the caller of each operation". -/
theorem c4_controllers_not_configurable :
    (¬ ∃ step ch : Int, ∃ m ∈ stepping_cc step ch, m[1]? ≠ some 1) ∧
    (¬ ∃ wt ch : Int, (set_wavetable wt ch)[1]? ≠ some 70) ∧
    (¬ ∃ ch : Int, (reset_controllers ch)[1]? ≠ some 121) := by
  refine ⟨?_, ?_, ?_⟩
  · rintro ⟨step, ch, m, hm, hne⟩
    obtain ⟨i, _, rfl⟩ := stepping_cc_shape step ch m hm
    exact hne rfl
  · rintro ⟨wt, ch, hne⟩
    exact hne rfl
  · rintro ⟨ch, hne⟩
    exact hne rfl

/-- C4 amended: the controller numbers are fixed literals in the message
construction, for every combination of caller arguments: the stepping
loop of `play_stepping` always sends controller `1`, `set_wavetable`
always sends controller `70`, and `reset_controllers` always sends
controller `121`. -/
theorem c4_amended_fixed_controllers (step ch wt : Int) :
    ((stepping_cc step ch).all fun m => m[1]? == some 1) = true ∧
    (set_wavetable wt ch)[1]? = some 70 ∧
    (reset_controllers ch)[1]? = some 121 := by
  refine ⟨?_, rfl, rfl⟩
  rw [List.all_eq_true]
  intro m hm
  obtain ⟨i, _, rfl⟩ := stepping_cc_shape step ch m hm
  rfl

/-- Every message of a `__main__` run starts with a status byte whose
low nibble is `(channel - 1) % 16`. -/
theorem mainMessages_head (channel note : Int) (w : Option Int)
    (m : List Int) (hm : m ∈ mainMessages channel note w) :
    ∃ b, m.head? = some b ∧ b % 16 = (channel - 1) % 16 := by
  unfold mainMessages at hm
  rcases List.mem_append.mp hm with h1 | h2
  · rcases w with _ | w
    · simp at h1
    · have h1' : m ∈ (if w ≠ 0 then
          [set_wavetable (w - 1) (channel - 1)] else []) := h1
      by_cases hw : w ≠ 0
      · rw [if_pos hw, List.mem_singleton] at h1'
        rw [h1']
        exact ⟨0xB0 + (channel - 1) % 16, rfl, by omega⟩
      · rw [if_neg hw] at h1'
        simp at h1'
  · rcases List.mem_append.mp h2 with h3 | h4
    · rw [List.mem_singleton.mp h3]
      exact ⟨0xB0 + (channel - 1) % 16, rfl, by omega⟩
    rcases List.mem_append.mp h4 with h5 | h6
    · rcases List.mem_cons.mp h5 with h7 | h8
      · rw [h7]
        exact ⟨0x90 + (channel - 1) % 16, rfl, by omega⟩
      rcases List.mem_append.mp h8 with h9 | h10
      · obtain ⟨i, _, rfl⟩ := stepping_cc_shape 2 (channel - 1) m h9
        exact ⟨0xB0 + (channel - 1) % 16, rfl, by omega⟩
      · rw [List.mem_singleton.mp h10]
        exact ⟨0x80 + (channel - 1) % 16, rfl, by omega⟩
    · rw [List.mem_singleton.mp h6]
      exact ⟨0xB0 + (channel - 1) % 16, rfl, by omega⟩

/-- C5: for a 1-based channel argument `1 ≤ c ≤ 16` the `__main__` block
passes `c - 1` as the 0-based channel, and every message of the run
(`set_wavetable`, `reset_controllers`, `play_stepping`) carries the
channel nibble `(c - 1) & 0xF = c - 1` in its status byte. -/
theorem c5_channel_conversion (c note : Int) (w : Option Int)
    (h1 : 1 ≤ c) (h2 : c ≤ 16) :
    ∀ m ∈ mainMessages c note w, ∃ b, m.head? = some b ∧ b % 16 = c - 1 := by
  intro m hm
  obtain ⟨b, hb, hmod⟩ := mainMessages_head c note w m hm
  exact ⟨b, hb, by omega⟩

/-- C5 witness: channel argument `1`, note `60`, no wavetable; the
Reset All Controllers message `[0xB0, 121, 0]` is in the run and its
status nibble is `0 = 1 - 1`. -/
theorem c5_channel_conversion_witness :
    (1 : Int) ≤ 1 ∧ (1 : Int) ≤ 16 ∧
    [0xB0, 121, 0] ∈ mainMessages 1 60 none ∧
    (∃ b, ([0xB0, (121 : Int), 0] : List Int).head? = some b ∧
      b % 16 = 1 - 1) :=
  ⟨by decide, by decide, by decide,
    c5_channel_conversion 1 60 none (by decide) (by decide)
      [0xB0, 121, 0] (by decide)⟩

/-- C9: run with the argparse defaults (`channel = 0`, `note = 60`, no
wavetable), the conversion `args.channel - 1` yields `-1`, the mask
`(ch & 0xF)` maps it to nibble `15`, and every message of the run is on
MIDI channel 16 (status nibble 15), none on channel 1 (nibble 0). -/
theorem c9_default_channel_wraps_to_16 :
    ((0 : Int) - 1) % 16 = 15 ∧
    ((mainMessages 0 60 none).all fun m => m.headD 0 % 16 == 15) = true ∧
    ((mainMessages 0 60 none).all fun m => m.headD 0 % 16 == 0) = false := by
  refine ⟨by decide, by decide, by decide⟩

end Wavetable

namespace Setup

/-!
Embedding of `src/setup.py`.  Interactions with the outside world are
passed in as parameters: `argv` is `sys.argv`, `platform` is
`sys.platform`, `findLib` is `ctypes.util.find_library` (does the named
shared library resolve?), and `jackPkg` is the outcome of
`StrictVersion(subprocess.check_output(['pkg-config', '--modversion',
'jack']).decode())` — `none` when that raises (`CalledProcessError`,
`UnicodeError` or `ValueError`, i.e. pkg-config failed or the output did
not parse), `some jv` when it parses.
-/

/-- Embeds `distutils.version.StrictVersion`: a `major.minor.patch` triple plus
an optional pre-release tag, a letter (`0` for `'a'`, `1` for `'b'`) and
a number. -/
structure PyStrictVersion where
  major : Nat
  minor : Nat
  patch : Nat
  prerelease : Option (Nat × Nat)
deriving DecidableEq

/-- Embeds `StrictVersion._cmp`: compare the version triples
lexicographically; on a tie, a version with a pre-release tag precedes
the same version without one, and two pre-release tags compare
lexicographically. -/
def svCmp (a b : PyStrictVersion) : Ordering :=
  if a.major ≠ b.major then compare a.major b.major
  else if a.minor ≠ b.minor then compare a.minor b.minor
  else if a.patch ≠ b.patch then compare a.patch b.patch
  else
    match a.prerelease, b.prerelease with
    | none, none => .eq
    | some _, none => .lt
    | none, some _ => .gt
    | some (l1, n1), some (l2, n2) =>
      if l1 ≠ l2 then compare l1 l2 else compare n1 n2

/-- Comparison `a >= b` on `StrictVersion`. -/
def svGe (a b : PyStrictVersion) : Bool :=
  svCmp a b ≠ Ordering.lt

/-- Constant `JACK1_MIN_VERSION = StrictVersion('0.125.0')`. -/
def JACK1_MIN_VERSION : PyStrictVersion := ⟨0, 125, 0, none⟩

/-- Constant `JACK2_MIN_VERSION = StrictVersion('1.9.11')`. -/
def JACK2_MIN_VERSION : PyStrictVersion := ⟨1, 9, 11, none⟩

/-- The condition of `check_for_jack`'s version test:
`(jv.version[0] == 0 and jv >= JACK1_MIN_VERSION) or
 (jv.version[0] == 1 and jv >= JACK2_MIN_VERSION)`, with a failed
pkg-config probe (`none`) skipping the test. -/
def jackRename (jackPkg : Option PyStrictVersion) : Bool :=
  match jackPkg with
  | none => false
  | some jv =>
    (jv.major == 0 && svGe jv JACK1_MIN_VERSION) ||
      (jv.major == 1 && svGe jv JACK2_MIN_VERSION)

/-- Embeds `check_for_jack(define_macros, libraries)`: if the jack shared
library is found, append `__UNIX_JACK__`, then `JACK_HAS_PORT_RENAME`
when the probed version passes the test, and append `'jack'` to the
libraries; otherwise leave both lists unchanged.  Returns
`(define_macros, libraries)`. -/
def check_for_jack (jackFound : Bool) (jackPkg : Option PyStrictVersion)
    (define_macros libraries : List String) : List String × List String :=
  if jackFound then
    (define_macros ++ ["__UNIX_JACK__"] ++
      (if jackRename jackPkg then ["JACK_HAS_PORT_RENAME"] else []),
     libraries ++ ["jack"])
  else (define_macros, libraries)

/-- The platform dispatch of the `if/elif` chain on `sys.platform`. -/
inductive PlatformBranch where
  | linux
  | darwin
  | win
  | other
deriving DecidableEq

/-- Python `s.startswith(p)`, expressed over the underlying character lists so
that it evaluates by `decide` (extensionally equal to
`String.startsWith`). -/
def strStartsWith (s p : String) : Bool :=
  p.data.isPrefixOf s.data

/-- Embeds `sys.platform.startswith('linux') / ('darwin') / ('win')`, in the
order the script tests them. -/
def platformBranch (platform : String) : PlatformBranch :=
  if strStartsWith platform "linux" then .linux
  else if strStartsWith platform "darwin" then .darwin
  else if strStartsWith platform "win" then .win
  else .other

/-- The fields of the `Extension` configuration that the script
assembles. -/
structure BuildConfig where
  define_macros : List String
  libraries : List String
  extra_compile_args : List String
  extra_link_args : List String
deriving DecidableEq

/-- The module-level configuration logic of `setup.py` (lines 178–241):
backend switches are consumed from `argv`, the warning-suppression macro
is added unless `--no-suppress-warnings` is present, and the platform
branch adds the backend macros and libraries.  On Linux a missing
`pthread` library aborts the build (`sys.exit`), embedded as `.error`.
(The script removes each recognised switch from `sys.argv` after
testing; that mutation cannot affect any later membership test, since
the switch strings are pairwise distinct, so the original `argv` is used
throughout.) -/
def configure (argv : List String) (platform : String)
    (findLib : String → Bool) (jackPkg : Option PyStrictVersion) :
    Except String BuildConfig :=
  let alsa := !(argv.contains "--no-alsa")
  let coremidi := !(argv.contains "--no-coremidi")
  let jack := !(argv.contains "--no-jack")
  let winmm := !(argv.contains "--no-winmm")
  let dm0 : List String :=
    if !(argv.contains "--no-suppress-warnings") then
      ["__RTMIDI_SILENCE_WARNINGS__"]
    else []
  match platformBranch platform with
  | .linux =>
    let p1 :=
      if alsa && findLib "asound" then (dm0 ++ ["__LINUX_ALSA__"], ["asound"])
      else (dm0, [])
    let p2 :=
      if jack then check_for_jack (findLib "jack") jackPkg p1.1 p1.2 else p1
    if !(findLib "pthread") then
      .error "The pthread library is required to build python-rtmidi on Linux."
    else .ok ⟨p2.1, p2.2 ++ ["pthread"], [], []⟩
  | .darwin =>
    let p1 := if jack then check_for_jack (findLib "jack") jackPkg dm0 [] else (dm0, [])
    if coremidi then
      .ok ⟨p1.1 ++ ["__MACOSX_CORE__"], p1.2, ["-frtti"],
        ["-framework", "CoreAudio", "-framework", "CoreMIDI",
         "-framework", "CoreFoundation"]⟩
    else .ok ⟨p1.1, p1.2, [], []⟩
  | .win =>
    if winmm then .ok ⟨dm0 ++ ["__WINDOWS_MM__"], ["winmm"], ["/EHsc"], []⟩
    else .ok ⟨dm0, [], ["/EHsc"], []⟩
  | .other => .ok ⟨dm0, [], [], []⟩

/-- Unfolding of the version test to a proposition. -/
theorem jackRename_iff (p : Option PyStrictVersion) :
    jackRename p = true ↔
      ∃ jv, p = some jv ∧
        ((jv.major = 0 ∧ svGe jv JACK1_MIN_VERSION = true) ∨
         (jv.major = 1 ∧ svGe jv JACK2_MIN_VERSION = true)) := by
  cases p <;> simp [jackRename]

/-- Membership in the macro list produced by `check_for_jack`. -/
theorem mem_check_for_jack_fst (X : String) (found : Bool)
    (p : Option PyStrictVersion) (dm libs : List String) :
    X ∈ (check_for_jack found p dm libs).1 ↔
      X ∈ dm ∨ (found = true ∧ (X = "__UNIX_JACK__" ∨
        (jackRename p = true ∧ X = "JACK_HAS_PORT_RENAME"))) := by
  cases found <;> by_cases hr : jackRename p = true <;>
    simp [check_for_jack, hr]

/-- Membership in the library list produced by `check_for_jack`. -/
theorem mem_check_for_jack_snd (X : String) (found : Bool)
    (p : Option PyStrictVersion) (dm libs : List String) :
    X ∈ (check_for_jack found p dm libs).2 ↔
      X ∈ libs ∨ (found = true ∧ X = "jack") := by
  cases found <;> simp [check_for_jack]

/-- C6: with the jack shared library found, `check_for_jack` appends the
`JACK_HAS_PORT_RENAME` macro if and only if pkg-config reported a
parseable version whose first component is `0` and which is at least
`0.125.0`, or whose first component is `1` and which is at least
`1.9.11`; a failed probe (`none`) or a version below the minima leaves
the macro undefined. -/
theorem c6_jack_port_rename (jackPkg : Option PyStrictVersion)
    (dm libs : List String) (hdm : "JACK_HAS_PORT_RENAME" ∉ dm) :
    "JACK_HAS_PORT_RENAME" ∈ (check_for_jack true jackPkg dm libs).1 ↔
      ∃ jv, jackPkg = some jv ∧
        ((jv.major = 0 ∧ svGe jv JACK1_MIN_VERSION = true) ∨
         (jv.major = 1 ∧ svGe jv JACK2_MIN_VERSION = true)) := by
  rw [mem_check_for_jack_fst]
  constructor
  · rintro (h | ⟨-, h | ⟨hr, -⟩⟩)
    · exact absurd h hdm
    · exact absurd h (by decide)
    · exact (jackRename_iff jackPkg).mp hr
  · intro h
    exact Or.inr ⟨rfl, Or.inr ⟨(jackRename_iff jackPkg).mpr h, rfl⟩⟩

/-- C6 witness: version `0.125.0` (the JACK1 minimum itself) enables the
macro when starting from empty lists. -/
theorem c6_jack_port_rename_witness :
    "JACK_HAS_PORT_RENAME" ∉ ([] : List String) ∧
    ("JACK_HAS_PORT_RENAME" ∈
        (check_for_jack true (some ⟨0, 125, 0, none⟩) [] []).1 ↔
      ∃ jv, (some (⟨0, 125, 0, none⟩ : PyStrictVersion)) = some jv ∧
        ((jv.major = 0 ∧ svGe jv JACK1_MIN_VERSION = true) ∨
         (jv.major = 1 ∧ svGe jv JACK2_MIN_VERSION = true))) :=
  ⟨by decide, c6_jack_port_rename (some ⟨0, 125, 0, none⟩) [] [] (by decide)⟩

/-- Exact characterization of the macro and library lists assembled by
`configure`: which strings end up in `define_macros` and in `libraries`,
as a function of the command-line switches, the platform branch and the
library probes. -/
theorem configure_mem_characterization (X Y : String) (argv : List String)
    (platform : String) (findLib : String → Bool)
    (jackPkg : Option PyStrictVersion) (cfg : BuildConfig)
    (h : configure argv platform findLib jackPkg = .ok cfg) :
    (X ∈ cfg.define_macros ↔
      (X = "__RTMIDI_SILENCE_WARNINGS__" ∧
        argv.contains "--no-suppress-warnings" = false) ∨
      (X = "__LINUX_ALSA__" ∧ platformBranch platform = .linux ∧
        argv.contains "--no-alsa" = false ∧ findLib "asound" = true) ∨
      ((X = "__UNIX_JACK__" ∨
          (X = "JACK_HAS_PORT_RENAME" ∧ jackRename jackPkg = true)) ∧
        (platformBranch platform = .linux ∨
          platformBranch platform = .darwin) ∧
        argv.contains "--no-jack" = false ∧ findLib "jack" = true) ∨
      (X = "__MACOSX_CORE__" ∧ platformBranch platform = .darwin ∧
        argv.contains "--no-coremidi" = false) ∨
      (X = "__WINDOWS_MM__" ∧ platformBranch platform = .win ∧
        argv.contains "--no-winmm" = false)) ∧
    (Y ∈ cfg.libraries ↔
      (Y = "asound" ∧ platformBranch platform = .linux ∧
        argv.contains "--no-alsa" = false ∧ findLib "asound" = true) ∨
      (Y = "jack" ∧ (platformBranch platform = .linux ∨
          platformBranch platform = .darwin) ∧
        argv.contains "--no-jack" = false ∧ findLib "jack" = true) ∨
      (Y = "pthread" ∧ platformBranch platform = .linux) ∨
      (Y = "winmm" ∧ platformBranch platform = .win ∧
        argv.contains "--no-winmm" = false)) := by
  cases hpb : platformBranch platform
  case linux =>
    cases hpt : findLib "pthread"
    · simp [configure, hpb, hpt] at h
    · cases hsw : argv.contains "--no-suppress-warnings" <;>
        cases halsa : argv.contains "--no-alsa" <;>
        cases hasnd : findLib "asound" <;>
        cases hjack : argv.contains "--no-jack" <;>
        cases hjf : findLib "jack" <;>
        cases hrn : jackRename jackPkg
      all_goals simp at hsw halsa hjack
      all_goals
        simp [configure, hpb, hpt, hsw, halsa, hasnd, hjack, hjf, hrn,
          check_for_jack] at h
      all_goals subst h
      all_goals simp [hpb, hsw, halsa, hasnd, hjack, hjf, hrn]
  case darwin =>
    cases hsw : argv.contains "--no-suppress-warnings" <;>
      cases hjack : argv.contains "--no-jack" <;>
      cases hjf : findLib "jack" <;>
      cases hrn : jackRename jackPkg <;>
      cases hcm : argv.contains "--no-coremidi"
    all_goals simp at hsw hjack hcm
    all_goals
      simp [configure, hpb, hsw, hjack, hjf, hrn, hcm, check_for_jack] at h
    all_goals subst h
    all_goals simp [hpb, hsw, hjack, hjf, hrn, hcm]
    all_goals tauto
  case win =>
    cases hsw : argv.contains "--no-suppress-warnings" <;>
      cases hwm : argv.contains "--no-winmm"
    all_goals simp at hsw hwm
    all_goals
      simp [configure, hpb, hsw, hwm] at h
    all_goals subst h
    all_goals simp [hpb, hsw, hwm]
  case other =>
    cases hsw : argv.contains "--no-suppress-warnings"
    all_goals simp at hsw
    all_goals
      simp [configure, hpb, hsw] at h
    all_goals subst h
    all_goals simp [hpb, hsw]

/-- C7 counterexample: on platform `win32` with no switches and no
findable shared library at all (`findLib` constantly `false`), the
`__WINDOWS_MM__` macro and the `winmm` library are added anyway — the
claim's "the macro is added exactly when the platform matches and the
required library is found" fails: no library check guards the WinMM
(or CoreMIDI) backend. -/
theorem c7_counterexample :
    configure [] "win32" (fun _ => false) none =
      .ok ⟨["__RTMIDI_SILENCE_WARNINGS__", "__WINDOWS_MM__"], ["winmm"],
        ["/EHsc"], []⟩ ∧
    "__WINDOWS_MM__" ∈ ["__RTMIDI_SILENCE_WARNINGS__", "__WINDOWS_MM__"] ∧
    (fun _ : String => false) "winmm" = false :=
  ⟨rfl, by decide, rfl⟩

/-- C7 amended: if a backend's `--no-X` switch is present in `argv`, its
macro and library are never added, on any platform.  If the switch is
absent, `__LINUX_ALSA__` is added exactly when the platform is Linux and
the `asound` library is found, and `__UNIX_JACK__` exactly when the
platform is Linux or macOS and the `jack` library is found; but
`__MACOSX_CORE__` is added whenever the platform is macOS and
`__WINDOWS_MM__` whenever the platform is Windows, with no library
check. -/
theorem c7_amended_backend_switches (argv : List String) (platform : String)
    (findLib : String → Bool) (jackPkg : Option PyStrictVersion)
    (cfg : BuildConfig)
    (h : configure argv platform findLib jackPkg = .ok cfg) :
    ("--no-alsa" ∈ argv →
      "__LINUX_ALSA__" ∉ cfg.define_macros ∧ "asound" ∉ cfg.libraries) ∧
    ("--no-jack" ∈ argv →
      "__UNIX_JACK__" ∉ cfg.define_macros ∧ "jack" ∉ cfg.libraries) ∧
    ("--no-coremidi" ∈ argv → "__MACOSX_CORE__" ∉ cfg.define_macros) ∧
    ("--no-winmm" ∈ argv →
      "__WINDOWS_MM__" ∉ cfg.define_macros ∧ "winmm" ∉ cfg.libraries) ∧
    ("--no-alsa" ∉ argv →
      ("__LINUX_ALSA__" ∈ cfg.define_macros ↔
        platformBranch platform = .linux ∧ findLib "asound" = true)) ∧
    ("--no-jack" ∉ argv →
      ("__UNIX_JACK__" ∈ cfg.define_macros ↔
        (platformBranch platform = .linux ∨
          platformBranch platform = .darwin) ∧ findLib "jack" = true)) ∧
    ("--no-coremidi" ∉ argv →
      ("__MACOSX_CORE__" ∈ cfg.define_macros ↔
        platformBranch platform = .darwin)) ∧
    ("--no-winmm" ∉ argv →
      ("__WINDOWS_MM__" ∈ cfg.define_macros ↔
        platformBranch platform = .win)) := by
  have hA := configure_mem_characterization "__LINUX_ALSA__" "asound"
    argv platform findLib jackPkg cfg h
  have hJ := configure_mem_characterization "__UNIX_JACK__" "jack"
    argv platform findLib jackPkg cfg h
  have hC := configure_mem_characterization "__MACOSX_CORE__" "winmm"
    argv platform findLib jackPkg cfg h
  have hW := configure_mem_characterization "__WINDOWS_MM__" "pthread"
    argv platform findLib jackPkg cfg h
  refine ⟨fun hin => ⟨?_, ?_⟩, fun hin => ⟨?_, ?_⟩, fun hin => ?_,
    fun hin => ⟨?_, ?_⟩, fun hout => ?_, fun hout => ?_, fun hout => ?_,
    fun hout => ?_⟩
  · rw [hA.1]; simp [hin]
  · rw [hA.2]; simp [hin]
  · rw [hJ.1]; simp [hin]
  · rw [hJ.2]; simp [hin]
  · rw [hC.1]; simp [hin]
  · rw [hW.1]; simp [hin]
  · rw [hC.2]; simp [hin]
  · rw [hA.1]; simp [hout]
  · rw [hJ.1]; simp [hout]
  · rw [hC.1]; simp [hout]
  · rw [hW.1]; simp [hout]

/-- C7 amended witness: a concrete Linux configuration with every
library findable, no switches, and a passing JACK 1.9.11 probe. -/
theorem c7_amended_backend_switches_witness :
    ("--no-alsa" ∈ ([] : List String) →
      "__LINUX_ALSA__" ∉ ["__RTMIDI_SILENCE_WARNINGS__", "__LINUX_ALSA__",
        "__UNIX_JACK__", "JACK_HAS_PORT_RENAME"] ∧
      "asound" ∉ ["asound", "jack", "pthread"]) ∧
    ("--no-jack" ∈ ([] : List String) →
      "__UNIX_JACK__" ∉ ["__RTMIDI_SILENCE_WARNINGS__", "__LINUX_ALSA__",
        "__UNIX_JACK__", "JACK_HAS_PORT_RENAME"] ∧
      "jack" ∉ ["asound", "jack", "pthread"]) ∧
    ("--no-coremidi" ∈ ([] : List String) →
      "__MACOSX_CORE__" ∉ ["__RTMIDI_SILENCE_WARNINGS__", "__LINUX_ALSA__",
        "__UNIX_JACK__", "JACK_HAS_PORT_RENAME"]) ∧
    ("--no-winmm" ∈ ([] : List String) →
      "__WINDOWS_MM__" ∉ ["__RTMIDI_SILENCE_WARNINGS__", "__LINUX_ALSA__",
        "__UNIX_JACK__", "JACK_HAS_PORT_RENAME"] ∧
      "winmm" ∉ ["asound", "jack", "pthread"]) ∧
    ("--no-alsa" ∉ ([] : List String) →
      ("__LINUX_ALSA__" ∈ ["__RTMIDI_SILENCE_WARNINGS__", "__LINUX_ALSA__",
          "__UNIX_JACK__", "JACK_HAS_PORT_RENAME"] ↔
        platformBranch "linux2" = .linux ∧
          (fun _ : String => true) "asound" = true)) ∧
    ("--no-jack" ∉ ([] : List String) →
      ("__UNIX_JACK__" ∈ ["__RTMIDI_SILENCE_WARNINGS__", "__LINUX_ALSA__",
          "__UNIX_JACK__", "JACK_HAS_PORT_RENAME"] ↔
        (platformBranch "linux2" = .linux ∨
          platformBranch "linux2" = .darwin) ∧
          (fun _ : String => true) "jack" = true)) ∧
    ("--no-coremidi" ∉ ([] : List String) →
      ("__MACOSX_CORE__" ∈ ["__RTMIDI_SILENCE_WARNINGS__", "__LINUX_ALSA__",
          "__UNIX_JACK__", "JACK_HAS_PORT_RENAME"] ↔
        platformBranch "linux2" = .darwin)) ∧
    ("--no-winmm" ∉ ([] : List String) →
      ("__WINDOWS_MM__" ∈ ["__RTMIDI_SILENCE_WARNINGS__", "__LINUX_ALSA__",
          "__UNIX_JACK__", "JACK_HAS_PORT_RENAME"] ↔
        platformBranch "linux2" = .win)) :=
  c7_amended_backend_switches [] "linux2" (fun _ => true)
    (some ⟨1, 9, 11, none⟩)
    ⟨["__RTMIDI_SILENCE_WARNINGS__", "__LINUX_ALSA__", "__UNIX_JACK__",
      "JACK_HAS_PORT_RENAME"], ["asound", "jack", "pthread"], [], []⟩ rfl

/-- C8: the `__RTMIDI_SILENCE_WARNINGS__` macro is defined if and only
if `--no-suppress-warnings` is absent from `argv`: backend deprecation
warnings are suppressed by default and the flag turns suppression off. -/
theorem c8_warnings_suppressed_by_default (argv : List String)
    (platform : String) (findLib : String → Bool)
    (jackPkg : Option PyStrictVersion) (cfg : BuildConfig)
    (h : configure argv platform findLib jackPkg = .ok cfg) :
    "__RTMIDI_SILENCE_WARNINGS__" ∈ cfg.define_macros ↔
      "--no-suppress-warnings" ∉ argv := by
  rw [(configure_mem_characterization "__RTMIDI_SILENCE_WARNINGS__" "jack"
    argv platform findLib jackPkg cfg h).1]
  simp

/-- C8 witness: an empty command line on an unsupported platform defines
the macro. -/
theorem c8_warnings_suppressed_by_default_witness :
    ("__RTMIDI_SILENCE_WARNINGS__" ∈
        (⟨["__RTMIDI_SILENCE_WARNINGS__"], [], [], []⟩ :
          BuildConfig).define_macros ↔
      "--no-suppress-warnings" ∉ ([] : List String)) :=
  c8_warnings_suppressed_by_default [] "plan9" (fun _ => false) none
    ⟨["__RTMIDI_SILENCE_WARNINGS__"], [], [], []⟩ rfl

end Setup
